import Mathlib

/-!
Verification of the resilient real-time market-data client of the
polymarket-bot repository.

Embedding conventions:
* JS numbers are embedded as `ℚ`.  A JS arithmetic step whose divisor is `0`
  produces `Infinity`/`NaN`; functions that can hit such a step return an
  `Option`, with `none` standing for a non-finite JS result.
* `Math.round` on finite doubles rounds half toward positive infinity, which
  is exactly Mathlib's `round : ℚ → ℤ` (defined as `⌊x + 1/2⌋`).
* Numeric JSON string fields (`"0.64"`) are embedded as the rational value
  the source obtains via `parseFloat`/`parseInt`.
* `Date.now()` readings are passed in as explicit `now : ℕ` arguments.
* React's `setState` merging (`setState(prev => ({...prev, ...updates}))`)
  is embedded as a record update on the state structure.
* The socket, the reconnect timer, the ping interval and the `useRef` cells
  of the hooks are embedded as explicit fields of a client structure; the
  event callbacks (`onopen`/`onmessage`/`onclose`/`onerror`), timer firings
  and the exported `connect`/`disconnect` functions become transition
  functions on that structure, driven by an explicit event list.
-/

namespace CLOBHook

/-- Embeds `calculateAmericanOdds` from the CLOB WebSocket hook
(`src/unnamed/part_000`, lines 87-94):
`prob = probability / 100`; if `prob > 0.5` return
`Math.round(-(prob / (1 - prob)) * 100)` else
`Math.round(((1 - prob) / prob) * 100)`.
The source has no guard: at `prob = 1` the first branch divides by `0`
(JS `-Infinity`), at `prob = 0` the second divides by `0` (JS `Infinity`);
these non-finite outcomes are `none`. -/
def calculateAmericanOdds (probability : ℚ) : Option ℤ :=
  let prob := probability / 100
  if prob > 1/2 then
    if 1 - prob = 0 then none else some (round (-(prob / (1 - prob)) * 100))
  else
    if prob = 0 then none else some (round (((1 - prob) / prob) * 100))

/-- Embeds `calculateEuropeanOdds` from the CLOB WebSocket hook
(`src/unnamed/part_000`, lines 96-99):
`prob = probability / 100`; return `Math.round((1 / prob) * 100) / 100`.
At `prob = 0` the division yields JS `Infinity`, embedded as `none`. -/
def calculateEuropeanOdds (probability : ℚ) : Option ℚ :=
  let prob := probability / 100
  if prob = 0 then none else
    some (((round ((1 / prob) * 100) : ℤ) : ℚ) / 100)

/-- One `{price, size}` level of an order book (`src/unnamed/part_000`,
`BookMessage.bids`/`asks` entries); the numeric strings of the wire format
are embedded as the rationals `parseFloat` yields on them. -/
structure PriceLevel where
  price : ℚ
  size : ℚ
deriving DecidableEq

/-- The inbound `book` event (`src/unnamed/part_000`, lines 4-12). -/
structure BookMessage where
  asset_id : String
  market : String
  timestamp : String
  hash : String
  bids : List PriceLevel
  asks : List PriceLevel
deriving DecidableEq

/-- One entry of the `changes` array of a `price_change` event
(`src/unnamed/part_000`, lines 17-22). -/
structure PriceChange where
  price : ℚ
  size : ℚ
  side : String
deriving DecidableEq

/-- The inbound `price_change` event (`src/unnamed/part_000`, lines 14-25). -/
structure PriceChangeMessage where
  asset_id : String
  market : String
  changes : List PriceChange
  hash : String
  timestamp : String
deriving DecidableEq

/-- The inbound `last_trade_price` event (`src/unnamed/part_000`,
lines 27-36); `price`, `size` embedded as the values `parseFloat` yields,
`timestamp` kept as the integer `parseInt` yields on the wire string. -/
structure LastTradePriceMessage where
  asset_id : String
  market : String
  price : ℚ
  side : String
  size : ℚ
  fee_rate_bps : ℚ
  timestamp : ℤ
deriving DecidableEq

/-- The derived odds record `LiveOdds` (`src/unnamed/part_000`,
lines 46-56); `americanOdds`/`europeanOdds` are `Option`s because the
unguarded divisions can produce non-finite JS numbers. -/
structure LiveOdds where
  tokenId : String
  probability : ℚ
  midPrice : ℚ
  spread : ℚ
  americanOdds : Option ℤ
  europeanOdds : Option ℚ
  bestBid : ℚ
  bestAsk : ℚ
  timestamp : ℕ
deriving DecidableEq

/-- The executed-trade record `ExecutedTrade` (`src/unnamed/part_000`,
lines 58-66).  The source casts `message.side as 'BUY' | 'SELL'` without
validating, so `side` stays a plain string here. -/
structure ExecutedTrade where
  id : String
  tokenId : String
  outcome : String
  side : String
  price : ℚ
  size : ℚ
  timestamp : ℤ
deriving DecidableEq

/-- The four-valued connection status of `CLOBWebSocketState`
(`src/unnamed/part_000`, line 70). -/
inductive ConnectionStatus
  | disconnected
  | connecting
  | connected
  | reconnecting
deriving DecidableEq

/-- The hook state `CLOBWebSocketState` (`src/unnamed/part_000`,
lines 68-75).  The JS object `liveOdds: Record<string, LiveOdds>` is
embedded as an association list in insertion order (JS objects preserve
string-key insertion order); `lastUpdate: number | null` as `Option ℕ`. -/
structure CLOBWebSocketState where
  isConnected : Bool
  connectionStatus : ConnectionStatus
  liveOdds : List (String × LiveOdds)
  executedTrades : List ExecutedTrade
  error : Option String
  lastUpdate : Option ℕ
deriving DecidableEq

/-- The initial hook state passed to `useState` (`src/unnamed/part_000`,
lines 102-109). -/
def initState : CLOBWebSocketState :=
  { isConnected := false
    connectionStatus := .disconnected
    liveOdds := []
    executedTrades := []
    error := none
    lastUpdate := none }

/-- The hook configuration `CLOBWebSocketConfig` (`src/unnamed/part_000`,
lines 77-84) with the defaults destructured at lines 118-125
(`autoReconnect = true`, `maxReconnectAttempts = 10`;
`reconnectInterval` only fixes the timer delay and plays no role in the
state evolution, so it is omitted). -/
structure CLOBWebSocketConfig where
  marketId : String
  tokenIds : List String
  outcomes : List String
  autoReconnect : Bool := true
  maxReconnectAttempts : ℕ := 10

/-- Key update on an association list with the semantics of the JS object
spread `{...prev, [key]: value}`: an existing key keeps its position and
gets the new value, a fresh key is appended. -/
def assocSet {β : Type} : List (String × β) → String → β → List (String × β)
  | [], k, v => [(k, v)]
  | (k', v') :: rest, k, v =>
    if k' = k then (k, v) :: rest else (k', v') :: assocSet rest k v

/-- Embeds the `tokenToOutcome` ref built by the effect at
`src/unnamed/part_000`, lines 131-136:
`tokenIds.forEach((tokenId, index) => map[tokenId] = outcomes[index] || 'Token ' + index)`.
JS `||` falls through on the empty string as well as on `undefined`. -/
def tokenToOutcome (tokenIds outcomes : List String) : List (String × String) :=
  tokenIds.enum.foldl
    (fun m p =>
      assocSet m p.2
        (match outcomes.get? p.1 with
          | some o => if o = "" then "Token " ++ toString p.1 else o
          | none => "Token " ++ toString p.1))
    []

/-- Embeds `calculateOddsFromBook` (`src/unnamed/part_000`, lines 144-169).
`sortedBids` sorts a copy of `bids` descending by price (JS comparator
`(a, b) => parseFloat(b.price) - parseFloat(a.price)`). -/
def sortedBids (bids : List PriceLevel) : List PriceLevel :=
  bids.mergeSort (fun a b => decide (b.price ≤ a.price))

/-- `sortedAsks` of `calculateOddsFromBook` sorts a copy of `asks`
ascending by price (`src/unnamed/part_000`, line 149). -/
def sortedAsks (asks : List PriceLevel) : List PriceLevel :=
  asks.mergeSort (fun a b => decide (a.price ≤ b.price))

/-- `bestBid = sortedBids.length ? parseFloat(sortedBids[0].price) : 0`
(`src/unnamed/part_000`, line 151). -/
def bestBidOf (bids : List PriceLevel) : ℚ :=
  match sortedBids bids with
  | [] => 0
  | x :: _ => x.price

/-- `bestAsk = sortedAsks.length ? parseFloat(sortedAsks[0].price) : 1`
(`src/unnamed/part_000`, line 152). -/
def bestAskOf (asks : List PriceLevel) : ℚ :=
  match sortedAsks asks with
  | [] => 1
  | x :: _ => x.price

/-- Embeds the body of `calculateOddsFromBook` (`src/unnamed/part_000`,
lines 144-169); `now` is the `Date.now()` reading of line 167. -/
def calculateOddsFromBook (now : ℕ) (message : BookMessage) : LiveOdds :=
  let bestBid := bestBidOf message.bids
  let bestAsk := bestAskOf message.asks
  let midPrice := (bestBid + bestAsk) / 2
  let spread := bestAsk - bestBid
  let probability := midPrice * 100
  { tokenId := message.asset_id
    probability := probability
    midPrice := midPrice
    spread := spread
    americanOdds := calculateAmericanOdds probability
    europeanOdds := calculateEuropeanOdds probability
    bestBid := bestBid
    bestAsk := bestAsk
    timestamp := now }

/-- Embeds `handleBookMessage` (`src/unnamed/part_000`, lines 171-182):
`setState(prev => ({...prev, liveOdds: {...prev.liveOdds, [odds.tokenId]: odds},
lastUpdate: Date.now()}))`.  Note the source calls `setState` directly,
without the `mountedRef` guard that `updateState` applies. -/
def handleBookMessage (now : ℕ) (s : CLOBWebSocketState)
    (message : BookMessage) : CLOBWebSocketState :=
  let odds := calculateOddsFromBook now message
  { s with
    liveOdds := assocSet s.liveOdds odds.tokenId odds
    lastUpdate := some now }

/-- The `ExecutedTrade` built by `handleTradeMessage`
(`src/unnamed/part_000`, lines 185-195): outcome looked up in the
`tokenToOutcome` map with JS `|| 'Unknown'` fallback, and
`id = asset_id + '-' + timestamp`. -/
def mkTrade (outMap : List (String × String))
    (message : LastTradePriceMessage) : ExecutedTrade :=
  let outcome :=
    match outMap.lookup message.asset_id with
    | some o => if o = "" then "Unknown" else o
    | none => "Unknown"
  { id := message.asset_id ++ "-" ++ toString message.timestamp
    tokenId := message.asset_id
    outcome := outcome
    side := message.side
    price := message.price
    size := message.size
    timestamp := message.timestamp }

/-- Embeds `handleTradeMessage` (`src/unnamed/part_000`, lines 184-202):
`executedTrades: [trade, ...prev.executedTrades].slice(0, 50)` and
`lastUpdate: Date.now()`; again a direct `setState`, unguarded. -/
def handleTradeMessage (outMap : List (String × String)) (now : ℕ)
    (s : CLOBWebSocketState) (message : LastTradePriceMessage) :
    CLOBWebSocketState :=
  { s with
    executedTrades := (mkTrade outMap message :: s.executedTrades).take 50
    lastUpdate := some now }

/-- A decoded CLOB event, classified by the `event_type` discriminant as in
the `switch` of `ws.onmessage` (`src/unnamed/part_000`, lines 295-313);
`unknown` covers the `default:` branch. -/
inductive CLOBMessage
  | book (m : BookMessage)
  | priceChange (m : PriceChangeMessage)
  | lastTradePrice (m : LastTradePriceMessage)
  | unknown
deriving DecidableEq

/-- One inbound frame as seen by `ws.onmessage`
(`src/unnamed/part_000`, lines 280-318).  `ping`/`pong` stand for the two
literal liveness texts; `invalid raw` is a frame on which `JSON.parse`
throws; `valid events` is a frame parsing to one event or an array of
events, already normalized to a list as by
`Array.isArray(messages) ? messages : [messages]`. -/
inductive Frame
  | ping
  | pong
  | invalid (raw : String)
  | valid (events : List CLOBMessage)

/-- The whole client of the CLOB hook: the produced React state plus the
`useRef` cells and timer/socket resources
(`src/unnamed/part_000`, lines 111-116), and two ghost counters:
`socketsCreated` counts `new WebSocket(...)` executions (connection
attempts) and `reconnectsScheduled` counts `setTimeout(connect, ...)`
executions (scheduled reconnect attempts); they instrument the model and
influence nothing. -/
structure Client where
  state : CLOBWebSocketState
  wsAttached : Bool
  reconnectTimerPending : Bool
  reconnectAttempts : ℕ
  pingActive : Bool
  mounted : Bool
  shouldReconnect : Bool
  socketsCreated : ℕ
  reconnectsScheduled : ℕ
deriving DecidableEq

/-- The client right after mount: initial `useState` value, refs at their
initial values (`mountedRef = true`, `shouldReconnectRef = true`,
`reconnectAttemptsRef = 0`), no socket and no timers. -/
def initClient : Client :=
  { state := initState
    wsAttached := false
    reconnectTimerPending := false
    reconnectAttempts := 0
    pingActive := false
    mounted := true
    shouldReconnect := true
    socketsCreated := 0
    reconnectsScheduled := 0 }

/-- Embeds `updateState` (`src/unnamed/part_000`, lines 138-142): the state
merge happens only while `mountedRef.current` is true. -/
def updateState (c : Client) (f : CLOBWebSocketState → CLOBWebSocketState) :
    Client :=
  if c.mounted then { c with state := f c.state } else c

/-- Embeds `connect` (`src/unnamed/part_000`, lines 233-359):
set `shouldReconnectRef = true`; refuse when unmounted or `marketId`/
`tokenIds` are missing; otherwise status `connecting`, clear the error and
create a fresh socket (counted in `socketsCreated`). -/
def connect (cfg : CLOBWebSocketConfig) (c : Client) : Client :=
  let c := { c with shouldReconnect := true }
  if ¬ c.mounted ∨ cfg.marketId = "" ∨ cfg.tokenIds = [] then c
  else
    let c := updateState c
      (fun s => { s with connectionStatus := .connecting, error := none })
    { c with wsAttached := true, socketsCreated := c.socketsCreated + 1 }

/-- Embeds `ws.onopen` (`src/unnamed/part_000`, lines 255-278): reset the
attempt counter, report `connected`, start the ping interval.  The delayed
`subscribeToMarket` send has no effect on the produced state and is not
modelled. -/
def onOpen (c : Client) : Client :=
  let c := { c with reconnectAttempts := 0 }
  let c := updateState c
    (fun s => { s with
      isConnected := true, connectionStatus := .connected, error := none })
  { c with pingActive := true }

/-- Embeds the dispatch of one decoded event inside `ws.onmessage`
(`src/unnamed/part_000`, lines 295-313).  `book` and `last_trade_price`
events call the direct-`setState` handlers (no `mounted` guard in the
source); `price_change` and unknown events only log. -/
def dispatchMessage (cfg : CLOBWebSocketConfig) (now : ℕ) (c : Client) :
    CLOBMessage → Client
  | .book m => { c with state := handleBookMessage now c.state m }
  | .lastTradePrice m =>
    let s :=
      handleTradeMessage (tokenToOutcome cfg.tokenIds cfg.outcomes) now
        c.state m
    { c with state := s }
  | .priceChange _ => c
  | .unknown => c

/-- Embeds `ws.onmessage` (`src/unnamed/part_000`, lines 280-318): the
literal `ping`/`pong` texts return early; a frame on which `JSON.parse`
throws lands in the `catch`, which only logs — the whole handler is wrapped
in `try`/`catch`, so no error escapes to the caller (the handler is a total
function here); a parsed frame is normalized to a list and dispatched in
array order. -/
def onMessage (cfg : CLOBWebSocketConfig) (now : ℕ) (c : Client) :
    Frame → Client
  | .ping => c
  | .pong => c
  | .invalid _ => c
  | .valid events => events.foldl (fun c m => dispatchMessage cfg now c m) c

/-- Embeds `ws.onclose` (`src/unnamed/part_000`, lines 320-342): stop the
ping interval, report `disconnected`; then, if `autoReconnect` and
`shouldReconnectRef` hold and the attempt counter is below
`maxReconnectAttempts`, increment the counter, report `reconnecting` and
schedule `connect` (counted in `reconnectsScheduled`).  There is no `else`
branch: when the cap is reached nothing further happens and no error is
recorded. -/
def onClose (cfg : CLOBWebSocketConfig) (c : Client) : Client :=
  let c := { c with pingActive := false }
  let c := updateState c
    (fun s => { s with isConnected := false, connectionStatus := .disconnected })
  if cfg.autoReconnect ∧ c.shouldReconnect ∧
      c.reconnectAttempts < cfg.maxReconnectAttempts then
    let c := { c with reconnectAttempts := c.reconnectAttempts + 1 }
    let c := updateState c (fun s => { s with connectionStatus := .reconnecting })
    { c with
      reconnectTimerPending := true
      reconnectsScheduled := c.reconnectsScheduled + 1 }
  else c

/-- Embeds `ws.onerror` (`src/unnamed/part_000`, lines 344-353): only the
error field is set; no transition is driven from here. -/
def onError (c : Client) : Client :=
  updateState c (fun s => { s with error := some "WebSocket connection error" })

/-- The reconnect timer firing (`src/unnamed/part_000`, lines 338-340):
the scheduled callback just calls `connect`.  Firing is only possible while
the timer is pending; `disconnect` clears it. -/
def fireReconnectTimer (cfg : CLOBWebSocketConfig) (c : Client) : Client :=
  if c.reconnectTimerPending then
    connect cfg { c with reconnectTimerPending := false }
  else c

/-- Embeds `disconnect` (`src/unnamed/part_000`, lines 361-381): suppress
reconnection, clear the reconnect timer and the ping interval, close and
drop the socket, report `disconnected`. -/
def disconnect (c : Client) : Client :=
  let c := { c with shouldReconnect := false }
  let c := { c with reconnectTimerPending := false }
  let c := { c with pingActive := false }
  let c := { c with wsAttached := false }
  updateState c
    (fun s => { s with isConnected := false, connectionStatus := .disconnected })

/-- One external stimulus to the client: an invocation of an exported
function, a socket callback, or a timer firing.  `messageEv` carries the
`Date.now()` reading its handlers would observe. -/
inductive Event
  | connectReq
  | openEv
  | closeEv
  | messageEv (now : ℕ) (f : Frame)
  | errorEv
  | timerFire
  | disconnectReq

/-- One step of the client under an external stimulus. -/
def step (cfg : CLOBWebSocketConfig) (c : Client) : Event → Client
  | .connectReq => connect cfg c
  | .openEv => onOpen c
  | .closeEv => onClose cfg c
  | .messageEv now f => onMessage cfg now c f
  | .errorEv => onError c
  | .timerFire => fireReconnectTimer cfg c
  | .disconnectReq => disconnect c

/-- Run the client over a list of stimuli, in order. -/
def run (cfg : CLOBWebSocketConfig) (c : Client) (es : List Event) : Client :=
  es.foldl (step cfg) c

end CLOBHook

namespace GenericWS

/-- The five-valued connection status used by the generic hook
(`src/unnamed/part_001`): the four spec states plus the `error` status it
reports on transport errors and exhausted retries. -/
inductive ConnStatus
  | disconnected
  | connecting
  | connected
  | reconnecting
  | error
deriving DecidableEq

/-- The `lastMessage` payload of the generic hook
(`src/unnamed/part_001`): a parsed message with a `type` discriminant, an
optional `error` text, and the timestamp the hook stamps on it
(`new Date().toISOString()`, embedded as the `now` clock reading). -/
structure WSMessage where
  type : String
  error : Option String
  timestamp : ℕ
deriving DecidableEq

/-- The generic hook state `WebSocketState` as initialized at
`src/unnamed/part_001`, lines 5-10. -/
structure WSState where
  isConnected : Bool
  connectionStatus : ConnStatus
  lastMessage : Option WSMessage
  error : Option String
deriving DecidableEq

/-- The generic hook configuration (`src/unnamed/part_001`, lines 17-23)
with its defaults (`autoReconnect = true`, `maxReconnectAttempts = 10`);
`url` and the backoff delay do not influence the state evolution and are
omitted. -/
structure WSConfig where
  marketId : Option String := none
  autoReconnect : Bool := true
  maxReconnectAttempts : ℕ := 10

/-- The generic hook's client: produced state, refs and resources
(`src/unnamed/part_001`, lines 12-15) plus the same two ghost counters as
the CLOB client. -/
structure Client where
  state : WSState
  wsAttached : Bool
  reconnectTimerPending : Bool
  reconnectAttempts : ℕ
  mounted : Bool
  socketsCreated : ℕ
  reconnectsScheduled : ℕ
deriving DecidableEq

/-- The generic client right after mount. -/
def initClient : Client :=
  { state :=
      { isConnected := false
        connectionStatus := .disconnected
        lastMessage := none
        error := none }
    wsAttached := false
    reconnectTimerPending := false
    reconnectAttempts := 0
    mounted := true
    socketsCreated := 0
    reconnectsScheduled := 0 }

/-- Embeds `updateState` (`src/unnamed/part_001`, lines 25-29). -/
def updateState (c : Client) (f : WSState → WSState) : Client :=
  if c.mounted then { c with state := f c.state } else c

/-- Embeds `connect` (`src/unnamed/part_001`, lines 31-137): return when
unmounted, else status `connecting`, clear the error, create the socket. -/
def connect (c : Client) : Client :=
  if ¬ c.mounted then c
  else
    let c := updateState c
      (fun s => { s with connectionStatus := .connecting, error := none })
    { c with wsAttached := true, socketsCreated := c.socketsCreated + 1 }

/-- Embeds `ws.onopen` (`src/unnamed/part_001`, lines 41-59); the
subscribe send has no state effect. -/
def onOpen (c : Client) : Client :=
  let c := { c with reconnectAttempts := 0 }
  updateState c
    (fun s => { s with
      isConnected := true, connectionStatus := .connected, error := none })

/-- One inbound frame for the generic hook: either `JSON.parse` fails on
it, or it parses to a message. -/
inductive GFrame
  | invalid (raw : String)
  | valid (message : WSMessage)

/-- Embeds `ws.onmessage` (`src/unnamed/part_001`, lines 61-84): a parsed
message is stored in `lastMessage` with a fresh timestamp; a parse failure
is caught and — unlike the CLOB hook — recorded in the state: `error` is
set to `'Failed to parse message'` and `lastMessage` to an error message
`{type: 'error', error: 'Invalid message format', timestamp}`. -/
def onMessage (now : ℕ) (c : Client) : GFrame → Client
  | .valid message =>
    updateState c
      (fun s => { s with
        lastMessage := some { message with timestamp := now } })
  | .invalid _ =>
    updateState c
      (fun s => { s with
        error := some "Failed to parse message"
        lastMessage := some
          { type := "error"
            error := some "Invalid message format"
            timestamp := now } })

/-- Embeds `ws.onclose` (`src/unnamed/part_001`, lines 86-115): report
`disconnected` and drop the socket; if `autoReconnect` holds and the
attempt counter is below the cap, report `reconnecting` and schedule the
timer (the counter is incremented later, inside the timer callback);
otherwise, if the counter has reached the cap, set the terminal error
`'Max reconnection attempts reached'` with status `error`. -/
def onClose (cfg : WSConfig) (c : Client) : Client :=
  let c := updateState c
    (fun s => { s with isConnected := false, connectionStatus := .disconnected })
  let c := { c with wsAttached := false }
  if cfg.autoReconnect ∧ c.reconnectAttempts < cfg.maxReconnectAttempts then
    let c := updateState c (fun s => { s with connectionStatus := .reconnecting })
    { c with
      reconnectTimerPending := true
      reconnectsScheduled := c.reconnectsScheduled + 1 }
  else if cfg.maxReconnectAttempts ≤ c.reconnectAttempts then
    updateState c
      (fun s => { s with
        error := some "Max reconnection attempts reached"
        connectionStatus := .error })
  else c

/-- The reconnect timer firing (`src/unnamed/part_001`, lines 102-108):
if still mounted, increment the attempt counter and call `connect`. -/
def fireReconnectTimer (c : Client) : Client :=
  if c.reconnectTimerPending then
    let c := { c with reconnectTimerPending := false }
    if c.mounted then
      connect { c with reconnectAttempts := c.reconnectAttempts + 1 }
    else c
  else c

/-- Embeds `disconnect` (`src/unnamed/part_001`, lines 139-154). -/
def disconnect (c : Client) : Client :=
  let c := { c with reconnectTimerPending := false }
  let c := { c with wsAttached := false }
  updateState c
    (fun s => { s with
      isConnected := false, connectionStatus := .disconnected, error := none })

/-- External stimuli for the generic client. -/
inductive Event
  | connectReq
  | openEv
  | closeEv
  | messageEv (now : ℕ) (f : GFrame)
  | timerFire
  | disconnectReq

/-- One step of the generic client under an external stimulus. -/
def step (cfg : WSConfig) (c : Client) : Event → Client
  | .connectReq => connect c
  | .openEv => onOpen c
  | .closeEv => onClose cfg c
  | .messageEv now f => onMessage now c f
  | .timerFire => fireReconnectTimer c
  | .disconnectReq => disconnect c

/-- Run the generic client over a list of stimuli, in order. -/
def run (cfg : WSConfig) (c : Client) (es : List Event) : Client :=
  es.foldl (step cfg) c

end GenericWS

namespace OddsCalculator

/-- Embeds `calculateAmericanOdds` from the standalone calculator script
(`src/scripts/odds-calculator.ts`, lines 23-34); the body is textually the
same computation as the hook's function. -/
def calculateAmericanOdds (probability : ℚ) : Option ℤ :=
  let prob := probability / 100
  if prob > 1/2 then
    if 1 - prob = 0 then none else some (round (-(prob / (1 - prob)) * 100))
  else
    if prob = 0 then none else some (round (((1 - prob) / prob) * 100))

/-- Embeds `calculateEuropeanOdds` from the standalone calculator script
(`src/scripts/odds-calculator.ts`, lines 36-40). -/
def calculateEuropeanOdds (probability : ℚ) : Option ℚ :=
  let prob := probability / 100
  if prob = 0 then none else
    some (((round ((1 / prob) * 100) : ℤ) : ℚ) / 100)

end OddsCalculator

namespace OddsSpec

/-- Modelled from the spec: reference pseudocode for `americanOdds`
(spec section 4.4): `p = probabilityPct / 100`; if `p > 0.5` then
`round(-(p / (1 - p)) * 100)` else `round(((1 - p) / p) * 100)`.
Division by zero (p = 0 or p = 1) is non-finite, embedded as `none`. -/
def americanOdds (probabilityPct : ℚ) : Option ℤ :=
  let p := probabilityPct / 100
  if p > 1/2 then
    if 1 - p = 0 then none else some (round (-(p / (1 - p)) * 100))
  else
    if p = 0 then none else some (round (((1 - p) / p) * 100))

/-- Modelled from the spec: reference pseudocode for `europeanOdds`
(spec section 4.4): `p = probabilityPct / 100`;
`round((1 / p) * 100) / 100` (2-decimal precision). -/
def europeanOdds (probabilityPct : ℚ) : Option ℚ :=
  let p := probabilityPct / 100
  if p = 0 then none else
    some (((round ((1 / p) * 100) : ℤ) : ℚ) / 100)

end OddsSpec

namespace CLOBHook

/-- The book event of the spec's round-trip property: one bid level
`{price: 0.64, size: 100}` and one ask level `{price: 0.66, size: 150}`. -/
def sampleBook : BookMessage :=
  { asset_id := "tok"
    market := "mkt"
    timestamp := "0"
    hash := "h"
    bids := [{ price := 64/100, size := 100 }]
    asks := [{ price := 66/100, size := 150 }] }

/-- Apply a sequence of trade events to the store, each with its own
`Date.now()` reading. -/
def applyTrades (outMap : List (String × String))
    (msgs : List (ℕ × LastTradePriceMessage)) (s : CLOBWebSocketState) :
    CLOBWebSocketState :=
  msgs.foldl (fun st p => handleTradeMessage outMap p.1 st p.2) s

/-- A concrete trade event carrying its index as feed timestamp. -/
def sampleTradeMsg (i : ℕ) : LastTradePriceMessage :=
  { asset_id := "tok"
    market := "mkt"
    price := 1
    side := "BUY"
    size := 2
    fee_rate_bps := 0
    timestamp := (i : ℤ) }

/-- Fifty-five concrete trade events, in feed order. -/
def sampleTrades55 : List (ℕ × LastTradePriceMessage) :=
  (List.range 55).map (fun i => (i, sampleTradeMsg i))

/-- A concrete hook configuration with `maxReconnectAttempts = 3`. -/
def cfg3 : CLOBWebSocketConfig :=
  { marketId := "mkt"
    tokenIds := ["tokYes", "tokNo"]
    outcomes := ["Yes", "No"]
    autoReconnect := true
    maxReconnectAttempts := 3 }

/-- The stimulus sequence of one immediate transport closure: the socket
closes, and whatever reconnect timer that scheduled then fires. -/
def closureCycle : ℕ → List Event
  | 0 => []
  | n+1 => Event.closeEv :: Event.timerFire :: closureCycle n

/-- One closure cycle as a function on clients. -/
def pairStep (cfg : CLOBWebSocketConfig) (c : Client) : Client :=
  fireReconnectTimer cfg (onClose cfg c)

/-- The client after a connect request followed by `n` immediate
closures under `cfg3`. -/
def immediateClosureRun (n : ℕ) : Client :=
  run cfg3 initClient (Event.connectReq :: closureCycle n)

/-- The stimulus sequence of the teardown scenario: connect, the socket
opens, it closes (scheduling a reconnect timer), and `disconnect` is
invoked while that timer is pending. -/
def teardownTrace : List Event :=
  [Event.connectReq, Event.openEv, Event.closeEv, Event.disconnectReq]

/-- The client right after the teardown scenario. -/
def afterTeardown : Client :=
  run cfg3 initClient teardownTrace

/-- A book event delivered (from the old socket's still-attached handlers)
after teardown, observed at clock reading 99. -/
def strayBookEvent : Event :=
  Event.messageEv 99 (Frame.valid [CLOBMessage.book sampleBook])

end CLOBHook

namespace GenericWS

/-- A concrete generic-hook configuration with `maxReconnectAttempts = 3`. -/
def cfg3 : WSConfig :=
  { marketId := some "mkt"
    autoReconnect := true
    maxReconnectAttempts := 3 }

/-- The stimulus sequence of one immediate transport closure for the
generic hook. -/
def closureCycle : ℕ → List Event
  | 0 => []
  | n+1 => Event.closeEv :: Event.timerFire :: closureCycle n

/-- One closure cycle as a function on generic clients. -/
def pairStep (cfg : WSConfig) (c : Client) : Client :=
  fireReconnectTimer (onClose cfg c)

/-- The generic client after a connect request followed by `n` immediate
closures under `cfg3`. -/
def immediateClosureRun (n : ℕ) : Client :=
  run cfg3 initClient (Event.connectReq :: closureCycle n)

end GenericWS

namespace CLOBHook

/-- A two-level book used to instantiate the level-order property. -/
def permBook : BookMessage :=
  { asset_id := "tok2"
    market := "mkt"
    timestamp := "0"
    hash := "h"
    bids := [{ price := 1, size := 1 }, { price := 2, size := 1 }]
    asks := [{ price := 3, size := 1 }, { price := 4, size := 1 }] }

/-- The bid side of `permBook`, listed in the opposite order. -/
def permBids : List PriceLevel :=
  [{ price := 2, size := 1 }, { price := 1, size := 1 }]

/-- The ask side of `permBook`, listed in the opposite order. -/
def permAsks : List PriceLevel :=
  [{ price := 4, size := 1 }, { price := 3, size := 1 }]

end CLOBHook

/-- C1: both the hook's odds functions (`src/unnamed/part_000`) and the
standalone calculator's odds functions (`src/scripts/odds-calculator.ts`)
compute exactly the spec's reference definitions of `americanOdds` and
`europeanOdds` on every input. -/
theorem c1_odds_functions_match_spec :
    (∀ p : ℚ, CLOBHook.calculateAmericanOdds p = OddsSpec.americanOdds p) ∧
    (∀ p : ℚ, CLOBHook.calculateEuropeanOdds p = OddsSpec.europeanOdds p) ∧
    (∀ p : ℚ, OddsCalculator.calculateAmericanOdds p = OddsSpec.americanOdds p) ∧
    (∀ p : ℚ, OddsCalculator.calculateEuropeanOdds p = OddsSpec.europeanOdds p) :=
  ⟨fun _ => rfl, fun _ => rfl, fun _ => rfl, fun _ => rfl⟩

/-- C8: the odds functions do not guard the boundaries. At
probabilityPct = 0 both functions divide by `prob = 0` (JS `Infinity`,
embedded as `none`), and at probabilityPct = 100 `calculateAmericanOdds`
divides by `1 - prob = 0`; so the claimed finiteness for every input in
[0, 100] fails at the boundary inputs, in the hook and in the script. -/
theorem c8_division_by_zero_unguarded :
    CLOBHook.calculateAmericanOdds 0 = none ∧
    CLOBHook.calculateEuropeanOdds 0 = none ∧
    CLOBHook.calculateAmericanOdds 100 = none ∧
    OddsCalculator.calculateAmericanOdds 0 = none ∧
    OddsCalculator.calculateEuropeanOdds 0 = none ∧
    OddsCalculator.calculateAmericanOdds 100 = none := by
  norm_num [CLOBHook.calculateAmericanOdds, CLOBHook.calculateEuropeanOdds,
    OddsCalculator.calculateAmericanOdds, OddsCalculator.calculateEuropeanOdds]

/-- C9: for every probabilityPct strictly between 0 and 100 and not equal
to 50, `calculateAmericanOdds` — the hook's and the standalone
calculator's alike — returns one finite value that is negative iff
probabilityPct > 50 and positive iff probabilityPct < 50, including after
the rounding step. -/
theorem c9_american_odds_sign (q : ℚ) (h0 : 0 < q) (h100 : q < 100)
    (h50 : q ≠ 50) :
    ∃ n : ℤ, CLOBHook.calculateAmericanOdds q = some n ∧
      OddsCalculator.calculateAmericanOdds q = some n ∧
      (n < 0 ↔ 50 < q) ∧ (0 < n ↔ q < 50) := by
  have hsame : OddsCalculator.calculateAmericanOdds q
      = CLOBHook.calculateAmericanOdds q := rfl
  have hp0 : 0 < q / 100 := by positivity
  have hp1 : q / 100 < 1 := by
    rw [div_lt_one (by norm_num : (0:ℚ) < 100)]; exact h100
  by_cases hgt : q / 100 > 1/2
  · have hq50 : 50 < q := by
      rw [gt_iff_lt, lt_div_iff (by norm_num : (0:ℚ) < 100)] at hgt
      linarith
    have hsub : (1 : ℚ) - q / 100 ≠ 0 := by intro h; nlinarith
    have heq : CLOBHook.calculateAmericanOdds q
        = some (round (-(q / 100 / (1 - q / 100)) * 100)) := by
      unfold CLOBHook.calculateAmericanOdds
      rw [if_pos hgt, if_neg hsub]
    have hneg : round (-(q / 100 / (1 - q / 100)) * 100) < 0 := by
      have hy : 1 < q / 100 / (1 - q / 100) := by
        rw [one_lt_div (by nlinarith : (0:ℚ) < 1 - q / 100)]
        nlinarith
      rw [round_eq, Int.floor_lt]
      push_cast
      nlinarith
    exact ⟨_, heq, hsame.trans heq,
      iff_of_true hneg hq50,
      iff_of_false (by omega) (by linarith)⟩
  · have hq50 : q < 50 := by
      push_neg at hgt
      rcases lt_or_eq_of_le hgt with h | h
      · rw [div_lt_iff (by norm_num : (0:ℚ) < 100)] at h; linarith
      · exfalso
        apply h50
        rw [div_eq_iff (by norm_num : (100:ℚ) ≠ 0)] at h
        linarith
    have hpz : q / 100 ≠ 0 := ne_of_gt hp0
    have heq : CLOBHook.calculateAmericanOdds q
        = some (round ((1 - q / 100) / (q / 100) * 100)) := by
      unfold CLOBHook.calculateAmericanOdds
      rw [if_neg hgt, if_neg hpz]
    have hpos : 0 < round ((1 - q / 100) / (q / 100) * 100) := by
      have hy : 1 < (1 - q / 100) / (q / 100) := by
        rw [one_lt_div hp0]
        have : q / 100 < 1/2 := by
          rw [div_lt_iff (by norm_num : (0:ℚ) < 100)]; linarith
        linarith
      have hone : (1 : ℤ) ≤ round ((1 - q / 100) / (q / 100) * 100) := by
        rw [round_eq, Int.le_floor]
        push_cast
        nlinarith
      omega
    exact ⟨_, heq, hsame.trans heq,
      iff_of_false (by omega) (by linarith),
      iff_of_true hpos hq50⟩

/-- Concrete instantiation of `c9_american_odds_sign` at probabilityPct = 75. -/
theorem c9_american_odds_sign_witness :
    (0:ℚ) < 75 ∧ (75:ℚ) < 100 ∧ (75:ℚ) ≠ 50 ∧
    ∃ n : ℤ, CLOBHook.calculateAmericanOdds 75 = some n ∧
      OddsCalculator.calculateAmericanOdds 75 = some n ∧
      (n < 0 ↔ 50 < (75:ℚ)) ∧ (0 < n ↔ (75:ℚ) < 50) :=
  ⟨by decide, by decide, by decide,
    c9_american_odds_sign 75 (by decide) (by decide) (by decide)⟩

/-- Evaluation helper: the token id of derived odds is the event's asset id. -/
theorem calculateOddsFromBook_tokenId (now : ℕ) (m : CLOBHook.BookMessage) :
    (CLOBHook.calculateOddsFromBook now m).tokenId = m.asset_id := rfl

/-- Overwriting the same key twice is the same as overwriting it once with
the second value. -/
theorem assocSet_assocSet {β : Type} (l : List (String × β)) (k : String)
    (v w : β) :
    CLOBHook.assocSet (CLOBHook.assocSet l k v) k w
      = CLOBHook.assocSet l k w := by
  induction l with
  | nil => simp [CLOBHook.assocSet]
  | cons p rest ih =>
    obtain ⟨k', v'⟩ := p
    by_cases h : k' = k
    · simp [CLOBHook.assocSet, h]
    · simp [CLOBHook.assocSet, h, ih]

/-- C7: feeding the book event with bids = [{0.64, 100}] and
asks = [{0.66, 150}] yields exactly midPrice = 0.65, spread = 0.02 and
probabilityPct = 65 in the derived odds. -/
theorem c7_sample_book_roundtrip :
    (CLOBHook.calculateOddsFromBook 0 CLOBHook.sampleBook).midPrice = 65/100 ∧
    (CLOBHook.calculateOddsFromBook 0 CLOBHook.sampleBook).spread = 2/100 ∧
    (CLOBHook.calculateOddsFromBook 0 CLOBHook.sampleBook).probability = 65 := by
  refine ⟨?_, ?_, ?_⟩ <;>
    norm_num [CLOBHook.calculateOddsFromBook, CLOBHook.bestBidOf,
      CLOBHook.bestAskOf, CLOBHook.sortedBids, CLOBHook.sortedAsks,
      CLOBHook.sampleBook, List.mergeSort]

/-- C6 counterexample: applying the identical book event twice, at the two
successive clock readings 0 and 1, changes the instrument's DerivedOdds
entry — its `timestamp` field moves from 0 to 1 — so the second
application does not yield a value equal to the first. -/
theorem c6_counterexample_timestamp_drift :
    (((CLOBHook.handleBookMessage 1
          (CLOBHook.handleBookMessage 0 CLOBHook.initState CLOBHook.sampleBook)
          CLOBHook.sampleBook).liveOdds.lookup "tok").map
        (fun o => o.timestamp)) = some 1 ∧
    (((CLOBHook.handleBookMessage 0 CLOBHook.initState
          CLOBHook.sampleBook).liveOdds.lookup "tok").map
        (fun o => o.timestamp)) = some 0 ∧
    ((CLOBHook.handleBookMessage 1
        (CLOBHook.handleBookMessage 0 CLOBHook.initState CLOBHook.sampleBook)
        CLOBHook.sampleBook).liveOdds.lookup "tok")
      ≠ ((CLOBHook.handleBookMessage 0 CLOBHook.initState
          CLOBHook.sampleBook).liveOdds.lookup "tok") := by
  refine ⟨rfl, rfl, fun h => ?_⟩
  have h2 : (some 1 : Option ℕ) = some 0 :=
    congrArg (fun x => x.map (fun o => o.timestamp)) h
  simp at h2

/-- C6 amended: re-applying the identical book event overwrites the
instrument's entry in place — the double application equals a single
application at the second clock reading, so nothing is duplicated and no
field other than the update timestamp drifts; in particular, at an equal
clock reading the second application changes nothing at all. -/
theorem c6_book_reapply_absorbed (s : CLOBHook.CLOBWebSocketState)
    (m : CLOBHook.BookMessage) (n₁ n₂ : ℕ) :
    CLOBHook.handleBookMessage n₂ (CLOBHook.handleBookMessage n₁ s m) m
      = CLOBHook.handleBookMessage n₂ s m := by
  simp only [CLOBHook.handleBookMessage, calculateOddsFromBook_tokenId]
  congr 1
  exact assocSet_assocSet s.liveOdds m.asset_id _ _

/-- C5 counterexample: in the generic hook (`src/unnamed/part_001`) a
non-JSON frame does change the exposed state snapshot — the `catch` branch
records a decode error. -/
theorem c5_counterexample_generic_state_change :
    (GenericWS.onMessage 7 GenericWS.initClient
        (GenericWS.GFrame.invalid "not json")).state
      ≠ GenericWS.initClient.state := by
  decide

/-- C5 amended: the message handlers are total (the `try`/`catch` wrapping
means no error escapes to the caller).  In the CLOB hook a non-JSON frame
— and the `ping`/`pong` liveness texts — leave the client completely
unchanged.  In the generic hook a non-JSON frame is dropped without any
connection-level effect (status, connectedness and socket untouched), but
the `error` and `lastMessage` fields are rewritten with a decode report. -/
theorem c5_malformed_frame_dropped (cfg : CLOBHook.CLOBWebSocketConfig)
    (now : ℕ) (c : CLOBHook.Client) (raw : String) :
    CLOBHook.onMessage cfg now c (CLOBHook.Frame.invalid raw) = c ∧
    CLOBHook.onMessage cfg now c CLOBHook.Frame.ping = c ∧
    CLOBHook.onMessage cfg now c CLOBHook.Frame.pong = c ∧
    (∀ (g : GenericWS.Client) (raw' : String),
      (GenericWS.onMessage now g (GenericWS.GFrame.invalid raw')).state.isConnected
          = g.state.isConnected ∧
      (GenericWS.onMessage now g (GenericWS.GFrame.invalid raw')).state.connectionStatus
          = g.state.connectionStatus ∧
      (GenericWS.onMessage now g (GenericWS.GFrame.invalid raw')).socketsCreated
          = g.socketsCreated ∧
      (GenericWS.onMessage now g (GenericWS.GFrame.invalid raw')).wsAttached
          = g.wsAttached) := by
  refine ⟨rfl, rfl, rfl, fun g raw' => ?_⟩
  simp only [GenericWS.onMessage, GenericWS.updateState]
  split <;> simp

/-- Prepending to an already-truncated list and truncating again is the
same as prepending to the untruncated list and truncating once. -/
theorem take50_cons_take50 {α : Type} (t : α) (l : List α) :
    (t :: l.take 50).take 50 = (t :: l).take 50 := by
  have h : (50 : ℕ) = 49 + 1 := rfl
  rw [h, List.take_succ_cons, List.take_succ_cons, List.take_take]
  norm_num

/-- Folding prepend-then-truncate over a list yields the reversed list in
front of the start, truncated to 50. -/
theorem foldl_push_take {α : Type} (ts l : List α) :
    ts.foldl (fun acc a => (a :: acc).take 50) (l.take 50)
      = (ts.reverse ++ l).take 50 := by
  induction ts generalizing l with
  | nil => simp
  | cons t ts ih =>
    simp only [List.foldl_cons]
    rw [take50_cons_take50, ih (t :: l)]
    simp [List.append_assoc]

/-- The executed-trades list produced by a sequence of trade events is a
fold of prepend-then-truncate steps. -/
theorem applyTrades_executedTrades (outMap : List (String × String))
    (msgs : List (ℕ × CLOBHook.LastTradePriceMessage))
    (s : CLOBHook.CLOBWebSocketState) :
    (CLOBHook.applyTrades outMap msgs s).executedTrades
      = msgs.foldl
          (fun acc p => (CLOBHook.mkTrade outMap p.2 :: acc).take 50)
          s.executedTrades := by
  induction msgs generalizing s with
  | nil => rfl
  | cons m ms ih =>
    show (CLOBHook.applyTrades outMap ms
        (CLOBHook.handleTradeMessage outMap m.1 s m.2)).executedTrades = _
    rw [ih]
    rfl

/-- C4: for every sequence of trade events applied to the fresh store the
executed-trades list is exactly the 50 most recent trades newest-first
(hence always at most 50 entries); for a sequence of 55 events the result
has exactly 50 entries and the 5 oldest events are evicted. -/
theorem c4_trade_list_cap (outMap : List (String × String))
    (msgs : List (ℕ × CLOBHook.LastTradePriceMessage)) :
    (CLOBHook.applyTrades outMap msgs CLOBHook.initState).executedTrades
      = ((msgs.map (fun p => CLOBHook.mkTrade outMap p.2)).reverse).take 50 ∧
    (CLOBHook.applyTrades outMap msgs CLOBHook.initState).executedTrades.length ≤ 50 ∧
    (msgs.length = 55 →
      (CLOBHook.applyTrades outMap msgs
          CLOBHook.initState).executedTrades.length = 50 ∧
      (CLOBHook.applyTrades outMap msgs CLOBHook.initState).executedTrades
        = ((msgs.drop 5).map (fun p => CLOBHook.mkTrade outMap p.2)).reverse) := by
  have hmain :
      (CLOBHook.applyTrades outMap msgs CLOBHook.initState).executedTrades
        = ((msgs.map (fun p => CLOBHook.mkTrade outMap p.2)).reverse).take 50 := by
    rw [applyTrades_executedTrades]
    have h0 : CLOBHook.initState.executedTrades
        = ([] : List CLOBHook.ExecutedTrade).take 50 := rfl
    have hfm :=
      List.foldl_map
        (fun p : ℕ × CLOBHook.LastTradePriceMessage =>
          CLOBHook.mkTrade outMap p.2)
        (fun (acc : List CLOBHook.ExecutedTrade) t => (t :: acc).take 50)
        msgs (([] : List CLOBHook.ExecutedTrade).take 50)
    rw [h0, ← hfm, foldl_push_take]
    simp
  refine ⟨hmain, ?_, fun h55 => ⟨?_, ?_⟩⟩
  · rw [hmain]
    simp only [List.length_take]
    omega
  · rw [hmain]
    simp [List.length_take, h55]
  · rw [hmain, List.take_reverse]
    simp [h55, List.map_drop]

/-- Concrete instantiation of `c4_trade_list_cap`: the 55 sample trade
events leave exactly 50 entries. -/
theorem c4_trade_list_cap_witness :
    CLOBHook.sampleTrades55.length = 55 ∧
    (CLOBHook.applyTrades [] CLOBHook.sampleTrades55
        CLOBHook.initState).executedTrades.length = 50 :=
  ⟨by simp [CLOBHook.sampleTrades55],
    ((c4_trade_list_cap [] CLOBHook.sampleTrades55).2.2
      (by simp [CLOBHook.sampleTrades55])).1⟩

/-- An empty descending sort means an empty bid side. -/
theorem sortedBids_eq_nil (l : List CLOBHook.PriceLevel)
    (hs : CLOBHook.sortedBids l = []) : l = [] := by
  have hperm := List.mergeSort_perm l (fun a b => decide (b.price ≤ a.price))
  rw [CLOBHook.sortedBids] at hs
  rw [hs] at hperm
  exact (hperm.symm.eq_nil)

/-- An empty ascending sort means an empty ask side. -/
theorem sortedAsks_eq_nil (l : List CLOBHook.PriceLevel)
    (hs : CLOBHook.sortedAsks l = []) : l = [] := by
  have hperm := List.mergeSort_perm l (fun a b => decide (a.price ≤ b.price))
  rw [CLOBHook.sortedAsks] at hs
  rw [hs] at hperm
  exact (hperm.symm.eq_nil)

/-- The head of the descending price sort belongs to the side and carries
its maximal price. -/
theorem sortedBids_head_max (l : List CLOBHook.PriceLevel)
    (x : CLOBHook.PriceLevel) (rest : List CLOBHook.PriceLevel)
    (hs : CLOBHook.sortedBids l = x :: rest) :
    x ∈ l ∧ ∀ z ∈ l, z.price ≤ x.price := by
  have hperm := List.mergeSort_perm l (fun a b => decide (b.price ≤ a.price))
  have hpw :=
    @List.sorted_mergeSort CLOBHook.PriceLevel
      (fun a b => decide (b.price ≤ a.price))
      (fun a b c hab hbc => by
        simp only [decide_eq_true_eq] at hab hbc ⊢
        exact le_trans hbc hab)
      (fun a b => by
        simp only [Bool.or_eq_true, decide_eq_true_eq]
        exact le_total b.price a.price)
      l
  rw [CLOBHook.sortedBids] at hs
  rw [hs] at hperm hpw
  have hhead := (List.pairwise_cons.mp hpw).1
  refine ⟨hperm.subset (List.mem_cons_self x rest), fun z hz => ?_⟩
  have hz' : z ∈ x :: rest := hperm.symm.subset hz
  rcases List.mem_cons.mp hz' with h | h
  · rw [h]
  · simpa [decide_eq_true_eq] using hhead z h

/-- The head of the ascending price sort belongs to the side and carries
its minimal price. -/
theorem sortedAsks_head_min (l : List CLOBHook.PriceLevel)
    (x : CLOBHook.PriceLevel) (rest : List CLOBHook.PriceLevel)
    (hs : CLOBHook.sortedAsks l = x :: rest) :
    x ∈ l ∧ ∀ z ∈ l, x.price ≤ z.price := by
  have hperm := List.mergeSort_perm l (fun a b => decide (a.price ≤ b.price))
  have hpw :=
    @List.sorted_mergeSort CLOBHook.PriceLevel
      (fun a b => decide (a.price ≤ b.price))
      (fun a b c hab hbc => by
        simp only [decide_eq_true_eq] at hab hbc ⊢
        exact le_trans hab hbc)
      (fun a b => by
        simp only [Bool.or_eq_true, decide_eq_true_eq]
        exact le_total a.price b.price)
      l
  rw [CLOBHook.sortedAsks] at hs
  rw [hs] at hperm hpw
  have hhead := (List.pairwise_cons.mp hpw).1
  refine ⟨hperm.subset (List.mem_cons_self x rest), fun z hz => ?_⟩
  have hz' : z ∈ x :: rest := hperm.symm.subset hz
  rcases List.mem_cons.mp hz' with h | h
  · rw [h]
  · simpa [decide_eq_true_eq] using hhead z h

/-- On a non-empty bid side, `bestBid` is a price of the side and bounds
every price of the side from above. -/
theorem bestBidOf_spec (l : List CLOBHook.PriceLevel) (hl : l ≠ []) :
    CLOBHook.bestBidOf l ∈ l.map (fun x => x.price) ∧
      ∀ p ∈ l.map (fun x => x.price), p ≤ CLOBHook.bestBidOf l := by
  cases hs : CLOBHook.sortedBids l with
  | nil => exact absurd (sortedBids_eq_nil l hs) hl
  | cons x rest =>
    obtain ⟨hx, hmax⟩ := sortedBids_head_max l x rest hs
    have hb : CLOBHook.bestBidOf l = x.price := by
      rw [CLOBHook.bestBidOf, hs]
    rw [hb]
    refine ⟨List.mem_map.mpr ⟨x, hx, rfl⟩, fun p hp => ?_⟩
    obtain ⟨z, hz, rfl⟩ := List.mem_map.mp hp
    exact hmax z hz

/-- On a non-empty ask side, `bestAsk` is a price of the side and bounds
every price of the side from below. -/
theorem bestAskOf_spec (l : List CLOBHook.PriceLevel) (hl : l ≠ []) :
    CLOBHook.bestAskOf l ∈ l.map (fun x => x.price) ∧
      ∀ p ∈ l.map (fun x => x.price), CLOBHook.bestAskOf l ≤ p := by
  cases hs : CLOBHook.sortedAsks l with
  | nil => exact absurd (sortedAsks_eq_nil l hs) hl
  | cons x rest =>
    obtain ⟨hx, hmin⟩ := sortedAsks_head_min l x rest hs
    have ha : CLOBHook.bestAskOf l = x.price := by
      rw [CLOBHook.bestAskOf, hs]
    rw [ha]
    refine ⟨List.mem_map.mpr ⟨x, hx, rfl⟩, fun p hp => ?_⟩
    obtain ⟨z, hz, rfl⟩ := List.mem_map.mp hp
    exact hmin z hz

/-- `bestBid` only depends on the multiset of levels. -/
theorem bestBidOf_perm (l l' : List CLOBHook.PriceLevel) (h : l.Perm l') :
    CLOBHook.bestBidOf l = CLOBHook.bestBidOf l' := by
  rcases eq_or_ne l [] with rfl | hl
  · have h' : l' = [] := h.symm.eq_nil
    rw [h']
  · have hl' : l' ≠ [] := by
      intro h'
      subst h'
      exact hl h.eq_nil
    obtain ⟨hmem, hmax⟩ := bestBidOf_spec l hl
    obtain ⟨hmem', hmax'⟩ := bestBidOf_spec l' hl'
    have hml : CLOBHook.bestBidOf l ∈ l'.map (fun x => x.price) :=
      (h.map (fun x => x.price)).subset hmem
    have hml' : CLOBHook.bestBidOf l' ∈ l.map (fun x => x.price) :=
      ((h.map (fun x => x.price)).symm).subset hmem'
    exact le_antisymm (hmax' _ hml) (hmax _ hml')

/-- `bestAsk` only depends on the multiset of levels. -/
theorem bestAskOf_perm (l l' : List CLOBHook.PriceLevel) (h : l.Perm l') :
    CLOBHook.bestAskOf l = CLOBHook.bestAskOf l' := by
  rcases eq_or_ne l [] with rfl | hl
  · have h' : l' = [] := h.symm.eq_nil
    rw [h']
  · have hl' : l' ≠ [] := by
      intro h'
      subst h'
      exact hl h.eq_nil
    obtain ⟨hmem, hmin⟩ := bestAskOf_spec l hl
    obtain ⟨hmem', hmin'⟩ := bestAskOf_spec l' hl'
    have hml : CLOBHook.bestAskOf l ∈ l'.map (fun x => x.price) :=
      (h.map (fun x => x.price)).subset hmem
    have hml' : CLOBHook.bestAskOf l' ∈ l.map (fun x => x.price) :=
      ((h.map (fun x => x.price)).symm).subset hmem'
    exact le_antisymm (hmin _ hml') (hmin' _ hml)

/-- C10: the derived odds of a book event are invariant under any
permutation of the bids array and any permutation of the asks array, and
(on non-empty sides) the derived `bestBid` is the maximum bid price and
the derived `bestAsk` the minimum ask price, whatever order the feed
listed the levels in. -/
theorem c10_odds_invariant_under_level_order (now : ℕ)
    (m : CLOBHook.BookMessage)
    (bids' asks' : List CLOBHook.PriceLevel)
    (hb : m.bids.Perm bids') (ha : m.asks.Perm asks') :
    CLOBHook.calculateOddsFromBook now { m with bids := bids', asks := asks' }
      = CLOBHook.calculateOddsFromBook now m ∧
    (m.bids ≠ [] →
      (CLOBHook.calculateOddsFromBook now m).bestBid
          ∈ m.bids.map (fun x => x.price) ∧
      ∀ p ∈ m.bids.map (fun x => x.price),
        p ≤ (CLOBHook.calculateOddsFromBook now m).bestBid) ∧
    (m.asks ≠ [] →
      (CLOBHook.calculateOddsFromBook now m).bestAsk
          ∈ m.asks.map (fun x => x.price) ∧
      ∀ p ∈ m.asks.map (fun x => x.price),
        (CLOBHook.calculateOddsFromBook now m).bestAsk ≤ p) := by
  have hbb : CLOBHook.bestBidOf bids' = CLOBHook.bestBidOf m.bids :=
    (bestBidOf_perm m.bids bids' hb).symm
  have haa : CLOBHook.bestAskOf asks' = CLOBHook.bestAskOf m.asks :=
    (bestAskOf_perm m.asks asks' ha).symm
  refine ⟨?_, fun hne => ?_, fun hne => ?_⟩
  · simp only [CLOBHook.calculateOddsFromBook]
    rw [hbb, haa]
  · have hfield : (CLOBHook.calculateOddsFromBook now m).bestBid
        = CLOBHook.bestBidOf m.bids := rfl
    rw [hfield]
    exact bestBidOf_spec m.bids hne
  · have hfield : (CLOBHook.calculateOddsFromBook now m).bestAsk
        = CLOBHook.bestAskOf m.asks := rfl
    rw [hfield]
    exact bestAskOf_spec m.asks hne

/-- Concrete instantiation of `c10_odds_invariant_under_level_order` on the
two-level sample book with both sides listed in the opposite order. -/
theorem c10_odds_invariant_witness :
    CLOBHook.permBook.bids.Perm CLOBHook.permBids ∧
    CLOBHook.permBook.asks.Perm CLOBHook.permAsks ∧
    (CLOBHook.calculateOddsFromBook 0
        { CLOBHook.permBook with
            bids := CLOBHook.permBids, asks := CLOBHook.permAsks }
      = CLOBHook.calculateOddsFromBook 0 CLOBHook.permBook ∧
    (CLOBHook.permBook.bids ≠ [] →
      (CLOBHook.calculateOddsFromBook 0 CLOBHook.permBook).bestBid
          ∈ CLOBHook.permBook.bids.map (fun x => x.price) ∧
      ∀ p ∈ CLOBHook.permBook.bids.map (fun x => x.price),
        p ≤ (CLOBHook.calculateOddsFromBook 0 CLOBHook.permBook).bestBid) ∧
    (CLOBHook.permBook.asks ≠ [] →
      (CLOBHook.calculateOddsFromBook 0 CLOBHook.permBook).bestAsk
          ∈ CLOBHook.permBook.asks.map (fun x => x.price) ∧
      ∀ p ∈ CLOBHook.permBook.asks.map (fun x => x.price),
        (CLOBHook.calculateOddsFromBook 0 CLOBHook.permBook).bestAsk ≤ p)) :=
  ⟨List.Perm.swap _ _ _, List.Perm.swap _ _ _,
    c10_odds_invariant_under_level_order 0 CLOBHook.permBook
      CLOBHook.permBids CLOBHook.permAsks
      (List.Perm.swap _ _ _) (List.Perm.swap _ _ _)⟩

/-- Running the closure cycles is iterating close-then-fire. -/
theorem run_closureCycle (cfg : CLOBHook.CLOBWebSocketConfig)
    (c : CLOBHook.Client) (n : ℕ) :
    CLOBHook.run cfg c (CLOBHook.closureCycle n)
      = (CLOBHook.pairStep cfg)^[n] c := by
  induction n generalizing c with
  | zero => rfl
  | succ k ih =>
    show CLOBHook.run cfg (CLOBHook.pairStep cfg c) (CLOBHook.closureCycle k) = _
    rw [ih, Function.iterate_succ_apply]

/-- Running the generic hook's closure cycles is iterating close-then-fire. -/
theorem grun_closureCycle (cfg : GenericWS.WSConfig)
    (c : GenericWS.Client) (n : ℕ) :
    GenericWS.run cfg c (GenericWS.closureCycle n)
      = (GenericWS.pairStep cfg)^[n] c := by
  induction n generalizing c with
  | zero => rfl
  | succ k ih =>
    show GenericWS.run cfg (GenericWS.pairStep cfg c) (GenericWS.closureCycle k) = _
    rw [ih, Function.iterate_succ_apply]

/-- The repeated-closure run as an iterate. -/
theorem immediateClosureRun_eq_iterate (n : ℕ) :
    CLOBHook.immediateClosureRun n
      = (CLOBHook.pairStep CLOBHook.cfg3)^[n]
          (CLOBHook.connect CLOBHook.cfg3 CLOBHook.initClient) :=
  run_closureCycle CLOBHook.cfg3 _ n

/-- The generic repeated-closure run as an iterate. -/
theorem gImmediateClosureRun_eq_iterate (n : ℕ) :
    GenericWS.immediateClosureRun n
      = (GenericWS.pairStep GenericWS.cfg3)^[n]
          (GenericWS.connect GenericWS.initClient) :=
  grun_closureCycle GenericWS.cfg3 _ n

/-- After four closure cycles the CLOB client no longer moves. -/
theorem pairStep_fixed_after_four :
    CLOBHook.pairStep CLOBHook.cfg3 (CLOBHook.immediateClosureRun 4)
      = CLOBHook.immediateClosureRun 4 := by decide

/-- After four closure cycles the generic client no longer moves. -/
theorem gPairStep_fixed_after_four :
    GenericWS.pairStep GenericWS.cfg3 (GenericWS.immediateClosureRun 4)
      = GenericWS.immediateClosureRun 4 := by decide

/-- From the fourth closure cycle on, the CLOB client is constant. -/
theorem immediateClosureRun_stable (n : ℕ) (h : 4 ≤ n) :
    CLOBHook.immediateClosureRun n = CLOBHook.immediateClosureRun 4 := by
  obtain ⟨m, rfl⟩ := Nat.exists_eq_add_of_le h
  clear h
  induction m with
  | zero => rfl
  | succ k ih =>
    have hstep : CLOBHook.immediateClosureRun (4 + (k + 1))
        = CLOBHook.pairStep CLOBHook.cfg3
            (CLOBHook.immediateClosureRun (4 + k)) := by
      rw [immediateClosureRun_eq_iterate, immediateClosureRun_eq_iterate]
      have harith : 4 + (k + 1) = (4 + k) + 1 := by omega
      rw [harith, Function.iterate_succ_apply']
    rw [hstep, ih, pairStep_fixed_after_four]

/-- From the fourth closure cycle on, the generic client is constant. -/
theorem gImmediateClosureRun_stable (n : ℕ) (h : 4 ≤ n) :
    GenericWS.immediateClosureRun n = GenericWS.immediateClosureRun 4 := by
  obtain ⟨m, rfl⟩ := Nat.exists_eq_add_of_le h
  clear h
  induction m with
  | zero => rfl
  | succ k ih =>
    have hstep : GenericWS.immediateClosureRun (4 + (k + 1))
        = GenericWS.pairStep GenericWS.cfg3
            (GenericWS.immediateClosureRun (4 + k)) := by
      rw [gImmediateClosureRun_eq_iterate, gImmediateClosureRun_eq_iterate]
      have harith : 4 + (k + 1) = (4 + k) + 1 := by omega
      rw [harith, Function.iterate_succ_apply']
    rw [hstep, ih, gPairStep_fixed_after_four]

/-- C2 counterexample: with `maxReconnectAttempts = 3` and repeated
immediate closures, the CLOB hook does stop after 3 scheduled reconnect
attempts and stays `disconnected`, but it surfaces no terminal error
condition (`error` is still `none`); the generic hook surfaces the
terminal error but does not remain in `disconnected` (its status is
`error`).  So neither client exhibits the claimed conjunction. -/
theorem c2_counterexample_cap_outcome :
    (CLOBHook.immediateClosureRun 5).reconnectsScheduled = 3 ∧
    (CLOBHook.immediateClosureRun 5).state.connectionStatus
      = CLOBHook.ConnectionStatus.disconnected ∧
    (CLOBHook.immediateClosureRun 5).state.error = none ∧
    (GenericWS.immediateClosureRun 5).state.connectionStatus
      ≠ GenericWS.ConnStatus.disconnected := by decide

/-- C2 amended: with `maxReconnectAttempts = 3`, a connect request
followed by at least four immediate closures yields in both hook variants
exactly 3 scheduled reconnect attempts and exactly 4 socket creations
(the initial connect plus the 3 retries), with no reconnect timer left
pending; after the cap the CLOB hook remains `disconnected` with no error
surfaced, while the generic hook reports status `error` together with the
terminal message `Max reconnection attempts reached`. -/
theorem c2_reconnect_cap (n : ℕ) (h : 4 ≤ n) :
    (CLOBHook.immediateClosureRun n).reconnectsScheduled = 3 ∧
    (CLOBHook.immediateClosureRun n).socketsCreated = 4 ∧
    (CLOBHook.immediateClosureRun n).reconnectTimerPending = false ∧
    (CLOBHook.immediateClosureRun n).state.connectionStatus
      = CLOBHook.ConnectionStatus.disconnected ∧
    (CLOBHook.immediateClosureRun n).state.error = none ∧
    (GenericWS.immediateClosureRun n).reconnectsScheduled = 3 ∧
    (GenericWS.immediateClosureRun n).socketsCreated = 4 ∧
    (GenericWS.immediateClosureRun n).reconnectTimerPending = false ∧
    (GenericWS.immediateClosureRun n).state.connectionStatus
      = GenericWS.ConnStatus.error ∧
    (GenericWS.immediateClosureRun n).state.error
      = some "Max reconnection attempts reached" := by
  rw [immediateClosureRun_stable n h, gImmediateClosureRun_stable n h]
  decide

/-- Concrete instantiation of `c2_reconnect_cap` at six closure cycles. -/
theorem c2_reconnect_cap_witness :
    4 ≤ 6 ∧
    ((CLOBHook.immediateClosureRun 6).reconnectsScheduled = 3 ∧
    (CLOBHook.immediateClosureRun 6).socketsCreated = 4 ∧
    (CLOBHook.immediateClosureRun 6).reconnectTimerPending = false ∧
    (CLOBHook.immediateClosureRun 6).state.connectionStatus
      = CLOBHook.ConnectionStatus.disconnected ∧
    (CLOBHook.immediateClosureRun 6).state.error = none ∧
    (GenericWS.immediateClosureRun 6).reconnectsScheduled = 3 ∧
    (GenericWS.immediateClosureRun 6).socketsCreated = 4 ∧
    (GenericWS.immediateClosureRun 6).reconnectTimerPending = false ∧
    (GenericWS.immediateClosureRun 6).state.connectionStatus
      = GenericWS.ConnStatus.error ∧
    (GenericWS.immediateClosureRun 6).state.error
      = some "Max reconnection attempts reached") :=
  ⟨by decide, c2_reconnect_cap 6 (by decide)⟩

/-- C3: after `disconnect` is invoked while a reconnect timer is pending,
the reconnect timer and the ping interval are indeed cancelled, a timer
firing or a further transport closure is inert (no state change, no new
socket, no new timer) — but a book event delivered to the still-attached
`onmessage` handler is *not* a no-op on the produced state: the direct,
unguarded `setState` of `handleBookMessage` writes a fresh `liveOdds`
entry and a fresh `lastUpdate`, mutating the snapshot after teardown. -/
theorem c3_teardown_book_event_mutates :
    CLOBHook.afterTeardown.reconnectTimerPending = false ∧
    CLOBHook.afterTeardown.pingActive = false ∧
    CLOBHook.step CLOBHook.cfg3 CLOBHook.afterTeardown
        CLOBHook.Event.timerFire = CLOBHook.afterTeardown ∧
    CLOBHook.step CLOBHook.cfg3 CLOBHook.afterTeardown
        CLOBHook.Event.closeEv = CLOBHook.afterTeardown ∧
    (CLOBHook.step CLOBHook.cfg3 CLOBHook.afterTeardown
        CLOBHook.strayBookEvent).socketsCreated
      = CLOBHook.afterTeardown.socketsCreated ∧
    CLOBHook.afterTeardown.state.lastUpdate = none ∧
    CLOBHook.afterTeardown.state.liveOdds.length = 0 ∧
    (CLOBHook.step CLOBHook.cfg3 CLOBHook.afterTeardown
        CLOBHook.strayBookEvent).state.lastUpdate = some 99 ∧
    (CLOBHook.step CLOBHook.cfg3 CLOBHook.afterTeardown
        CLOBHook.strayBookEvent).state.liveOdds.length = 1 := by
  decide
